import Mathlib

/-!
Shallow embedding of `src/frontend/src/pages/LearnPage.js`, the single
source file of the repository: a chat page that collects a draft query,
posts it to `/api/learn`, keeps an append-only message list in view
state, and exports the transcript as plain text or a paginated PDF.

Modelling conventions:
* React `useState` cells (`query`, `messages`, `loading`, `error`,
  `isRecordingLearn`) become fields of `LearnState`; the speech
  recognition session is tracked by `recognitionActive` and the
  3-second auto-stop `setTimeout` closure by `pendingAutoStop`, which
  stores the `isRecordingLearn` value captured by the closure at the
  render that created it (JS closures capture the render-scope binding,
  which React state setters do not mutate).
* `new Date().toISOString()` / `toLocaleTimeString()` are environment
  inputs, passed as explicit `String` arguments or functions.
* The `fetch` outcome is an explicit `FetchOutcome` argument: a thrown
  network error, or an HTTP response with its `ok` flag and the parsed
  JSON body's `response` field (`Option String`; `none` = field absent).
* `async` suspension splits `handleSubmit` into the part before `await
  fetch` (`handleSubmitPre`) and the continuation (`handleSubmitResolve`);
  `handleSubmit` is the whole call with a given fetch outcome.
-/

set_option maxRecDepth 100000

/-- Model of the JavaScript builtin `String.prototype.trim` used at
lines 116 and 372 (`query.trim()`): strips leading and trailing
whitespace. Written structurally over the character list so that
concrete instances reduce in the kernel. -/
def jsTrim (s : String) : String :=
  String.mk (((s.data.dropWhile Char.isWhitespace).reverse.dropWhile
    Char.isWhitespace).reverse)

/-- A chat message as built in `LearnPage.js` (lines 102-106, 123, 141-145):
a plain object with `role` (the strings `user` / `assistant`), `content`,
and an ISO timestamp string. -/
structure Message where
  role : String
  content : String
  timestamp : String
deriving DecidableEq, Repr

/-- The JSON body of the POST to `/api/learn` (line 133): `{ query }`. -/
structure Request where
  query : String
deriving DecidableEq, Repr

/-- Component state: the `useState` cells of `LearnPage` plus the
recognition-session and pending-timer bookkeeping described above. -/
structure LearnState where
  query : String
  messages : List Message
  loading : Bool
  error : Option String
  isRecordingLearn : Bool
  recognitionAvailable : Bool
  recognitionActive : Bool
  pendingAutoStop : Option Bool
deriving DecidableEq, Repr

/-- State at mount: all `useState` initial values (lines 7-12). -/
def initialLearnState : LearnState :=
  { query := ""
    messages := []
    loading := false
    error := none
    isRecordingLearn := false
    recognitionAvailable := true
    recognitionActive := false
    pendingAutoStop := none }

/-- The welcome message seeded by the mount `useEffect` (lines 101-107). -/
def welcomeMessage (ts : String) : Message :=
  { role := "assistant"
    content := "Welcome to the Gopher Archive Learning Portal. I can help you understand:\n\n• Gopher protocol history and technical details\n• Differences between old and modern technologies\n• Internet evolution from 1990s to today\n• Vintage computing and protocols\n\nWhat would you like to learn about?"
    timestamp := ts }

/-- The mount `useEffect` (lines 101-107): `setMessages([welcome])`. -/
def mountWelcome (s : LearnState) (ts : String) : LearnState :=
  { s with messages := [welcomeMessage ts] }

/-- The error string set in the catch branch (line 149). -/
def connectErrorText : String := "Unable to connect to archive. Please try again."

/-- The fallback assistant content when `data.response` is falsy (line 143). -/
def fallbackContent : String := "No response from archive."

/-- Outcome of the `await fetch(...)` call and subsequent body parsing:
either the fetch (or `response.json()`) throws, or it yields a response
with an `ok` flag and the value of the parsed body's `response` field
(`none` when the field is absent). -/
inductive FetchOutcome where
  | networkError : FetchOutcome
  | httpResponse (ok : Bool) (respField : Option String) : FetchOutcome
deriving DecidableEq, Repr

/-- JavaScript `a || b` for a possibly-absent string field `a` (line 143):
the fallback is used when the field is absent or its value is the empty
string (both falsy in JS). -/
def jsOrString (v : Option String) (d : String) : String :=
  match v with
  | some s => if s = "" then d else s
  | none => d

/-- The part of `handleSubmit` (lines 114-127, 133) that runs before the
`await fetch` suspends: guard on `!query.trim()`; stop recognition if
recording; append the user message built from the still-uncleared `query`;
clear the draft; set `loading`; clear `error`. Returns the new state and
the request body the fetch is issued with (`none` when the guard returned
early and no fetch happens). `tsUser` is `new Date().toISOString()`. -/
def handleSubmitPre (s : LearnState) (tsUser : String) : LearnState × Option Request :=
  if jsTrim s.query = "" then (s, none)
  else
    let s0 := if s.isRecordingLearn then { s with recognitionActive := false } else s
    let userMessage : Message := { role := "user", content := s.query, timestamp := tsUser }
    ({ s0 with messages := s0.messages ++ [userMessage]
               query := ""
               loading := true
               error := none },
     some { query := s.query })

/-- The continuation of `handleSubmit` after the fetch resolves
(lines 136-153): non-`ok` throws into the catch, which sets the error
string; a thrown fetch also lands in the catch; on `ok`, an assistant
message with `data.response || fallback` is appended. The `finally`
clears `loading` in every branch. `tsAssistant` is the
`new Date().toISOString()` of line 144. -/
def handleSubmitResolve (s : LearnState) (outcome : FetchOutcome) (tsAssistant : String) :
    LearnState :=
  match outcome with
  | .networkError =>
      { s with error := some connectErrorText, loading := false }
  | .httpResponse ok respField =>
      if ok then
        { s with messages := s.messages ++
                   [{ role := "assistant"
                      content := jsOrString respField fallbackContent
                      timestamp := tsAssistant }]
                 loading := false }
      else
        { s with error := some connectErrorText, loading := false }

/-- The whole `handleSubmit` (lines 114-154) run to completion with fetch
outcome `outcome`: the pre-suspension part followed by the continuation.
Returns the final state and the request body sent (if any). -/
def handleSubmit (s : LearnState) (tsUser tsAssistant : String) (outcome : FetchOutcome) :
    LearnState × Option Request :=
  match handleSubmitPre s tsUser with
  | (s1, none) => (s1, none)
  | (s1, some r) => (handleSubmitResolve s1 outcome tsAssistant, some r)

/-- The `disabled` condition of the ASK submit button (line 372):
`loading || !query.trim()`. -/
def askSubmitDisabled (s : LearnState) : Bool :=
  s.loading || jsTrim s.query = ""

/-- Submission as reachable through the UI: the form submits only via the
ASK button (line 369-375) or Enter in the text input (lines 157-162, 352),
and both controls carry `disabled` while `loading` (lines 354, 372), so a
disabled control dispatches no submit event and `handleSubmit` runs only
when the ASK button's `disabled` condition is false. -/
def uiSubmit (s : LearnState) (tsUser tsAssistant : String) (outcome : FetchOutcome) :
    LearnState × Option Request :=
  if askSubmitDisabled s then (s, none)
  else handleSubmit s tsUser tsAssistant outcome

/-- `toggleMicrophoneLearn` (lines 71-98). When idle it starts recording
and schedules the 3-second auto-stop timer; the timer's closure captures
the `isRecordingLearn` binding of the render that created the handler,
whose value is `s.isRecordingLearn` (the pre-toggle value — the
`setIsRecordingLearn(true)` call does not mutate that binding). -/
def toggleMicrophoneLearn (s : LearnState) : LearnState :=
  if ¬ s.recognitionAvailable ∨ s.loading then s
  else if s.isRecordingLearn then
    { s with recognitionActive := false, isRecordingLearn := false }
  else
    { s with isRecordingLearn := true
             recognitionActive := true
             pendingAutoStop := some s.isRecordingLearn }

/-- The scheduled auto-stop timer firing (lines 92-96): it tests the
captured `isRecordingLearn` value and calls `recognitionLearn.stop()`
only when that captured value is true. -/
def fireAutoStop (s : LearnState) : LearnState :=
  match s.pendingAutoStop with
  | none => s
  | some captured =>
      { s with pendingAutoStop := none
               recognitionActive := if captured then false else s.recognitionActive }

/-- The `YOU` / `ARCHIVE` role label used by both exporters
(lines 168, 206): `msg.role === 'user' ? 'YOU' : 'ARCHIVE'`. -/
def roleLabel (role : String) : String :=
  if role = "user" then "YOU" else "ARCHIVE"

/-- One block of the plain-text export (lines 166-169): the template
string of line 169, with `fmtTime` modelling
`new Date(msg.timestamp).toLocaleTimeString()`. -/
def messageBlock (fmtTime : String → String) (m : Message) : String :=
  "[" ++ fmtTime m.timestamp ++ "] " ++ roleLabel m.role ++ ":\n" ++ m.content ++ "\n"

/-- The conversation text built by `handleCopyText` (lines 165-170):
`messages.map(block).join('\n')`. -/
def handleCopyText (fmtTime : String → String) (messages : List Message) : String :=
  String.intercalate "\n" (messages.map (messageBlock fmtTime))

/-- Modelled from the spec: the plain-text transcript as §4.4 and the C8
sources word it — one block `[localized-time] ROLE:\ncontent\n` per
Message, in insertion order with blank-line separation and no messages
inserted, dropped, or reordered. Stated recursively so that equality with
`handleCopyText` is a genuine refinement check. -/
def specTranscript (fmtTime : String → String) : List Message → String
  | [] => ""
  | [m] => messageBlock fmtTime m
  | m :: m2 :: rest => messageBlock fmtTime m ++ "\n" ++ specTranscript fmtTime (m2 :: rest)

/-! ### PDF export (`handleDownloadPDF`, lines 178-238)

The jsPDF document is modelled as the trace of `doc.text` calls: each
call records the page it lands on and the `yPosition` it is written at.
`pageHeight` is `doc.internal.pageSize.getHeight()`, kept as an integer
parameter: every `yPosition` the code produces is an integer (start 20,
increments 10, 7 and 5), so for any real page height `H` the comparison
`yPosition > H - margin` behaves exactly like the integer comparison with
`⌊H⌋` (for A4, `⌊297.000…⌋ = 297`). `doc.splitTextToSize(content, w)` is
a library call, passed in as the `split` function; `fmtTime` is
`toLocaleTimeString` as above. The `doc.line` separator call (line 199)
is not a text write and only advances the cursor. -/

/-- The `margin` constant (line 182). -/
def pdfMargin : Int := 20

/-- The `lineHeight` constant (line 183). -/
def pdfLineHeight : Int := 7

/-- One recorded `doc.text(txt, margin, yPosition)` call: the page it is
issued on and the `yPosition` argument. -/
structure PdfWrite where
  page : Nat
  y : Int
  text : String
deriving DecidableEq, Repr

/-- jsPDF document state: current page (0-based; `doc.addPage()` adds 1),
the running `yPosition` local, and the trace of text writes. -/
structure PdfDoc where
  page : Nat
  y : Int
  writes : List PdfWrite
deriving DecidableEq, Repr

/-- The page-break guard (lines 209-212 and 223-226): `if (yPosition >
pageHeight - margin) { doc.addPage(); yPosition = margin; }`. -/
def pdfEnsureRoom (pageHeight : Int) (d : PdfDoc) : PdfDoc :=
  if d.y > pageHeight - pdfMargin then { d with page := d.page + 1, y := pdfMargin } else d

/-- A `doc.text(txt, margin, yPosition)` call: records the write at the
current page and cursor. -/
def pdfWriteText (d : PdfDoc) (txt : String) : PdfDoc :=
  { d with writes := d.writes ++ [{ page := d.page, y := d.y, text := txt }] }

/-- The guard + write + advance triple that the loop body repeats for the
header (lines 209-217) and for each wrapped content line (lines 223-228):
page-break check, `doc.text(txt, margin, yPosition)`, then
`yPosition += lineHeight`. -/
def pdfGuardedLine (pageHeight : Int) (d : PdfDoc) (txt : String) : PdfDoc :=
  let d := pdfEnsureRoom pageHeight d
  let d := pdfWriteText d txt
  { d with y := d.y + pdfLineHeight }

/-- The per-message body of the `messages.forEach` loop (lines 204-232):
guard, bold header write, `yPosition += lineHeight`, then for each wrapped
line of `splitTextToSize` a guard, write and `yPosition += lineHeight`,
and finally `yPosition += 5` between messages. -/
def renderMessage (pageHeight : Int) (split : String → List String)
    (fmtTime : String → String) (d : PdfDoc) (msg : Message) : PdfDoc :=
  let header := "[" ++ fmtTime msg.timestamp ++ "] " ++ roleLabel msg.role ++ ":"
  let d := pdfGuardedLine pageHeight d header
  let d := (split msg.content).foldl (pdfGuardedLine pageHeight) d
  { d with y := d.y + 5 }

/-- `handleDownloadPDF` (lines 178-232): title at the top margin, then
`+10`; the `Generated:` line, then `+10`; the rule (cursor only), then
`+10`; then the message loop. Returns the final document trace. -/
def handleDownloadPDF (pageHeight : Int) (split : String → List String)
    (fmtTime : String → String) (genTime : String) (messages : List Message) : PdfDoc :=
  let d : PdfDoc := { page := 0, y := pdfMargin, writes := [] }
  let d := pdfWriteText d "GOPHER ARCHIVE - LEARNING SESSION"
  let d := { d with y := d.y + 10 }
  let d := pdfWriteText d ("Generated: " ++ genTime)
  let d := { d with y := d.y + 10 }
  let d := { d with y := d.y + 10 }
  messages.foldl (renderMessage pageHeight split fmtTime) d

/-! ### Events that update component state

Every state update the component performs after mount, at the
granularity of individual handler runs and `setState` batches. The
message list is touched only by `submitStart` (the pre-`await` part of
`handleSubmit`) and `submitFinish` (its continuation). -/

/-- `onresult` (lines 26-44): sets `query` to the final transcript if
non-empty, else to the interim transcript if non-empty, else leaves it. -/
def speechResult (s : LearnState) (finalT interimT : String) : LearnState :=
  if finalT ≠ "" then { s with query := finalT }
  else if interimT ≠ "" then { s with query := interimT }
  else s

/-- A state-updating event after mount. -/
inductive Event where
  | setQueryInput (t : String)
  | submitStart (tsUser : String)
  | submitFinish (outcome : FetchOutcome) (tsAssistant : String)
  | toggleMic
  | autoStopTimer
  | recognitionEnd
  | recognitionError
  | speechTranscript (finalT interimT : String)

/-- The state transition each event performs, read off the handlers:
`onChange` (line 351), `handleSubmit` before/after the `await`,
`toggleMicrophoneLearn`, the auto-stop timer, `onend` (lines 46-54),
`onerror` (lines 56-65), `onresult` (lines 26-44). -/
def step (s : LearnState) : Event → LearnState
  | .setQueryInput t => { s with query := t }
  | .submitStart tsUser => (handleSubmitPre s tsUser).1
  | .submitFinish outcome tsAssistant => handleSubmitResolve s outcome tsAssistant
  | .toggleMic => toggleMicrophoneLearn s
  | .autoStopTimer => fireAutoStop s
  | .recognitionEnd => { s with isRecordingLearn := false }
  | .recognitionError => { s with isRecordingLearn := false }
  | .speechTranscript finalT interimT => speechResult s finalT interimT

/-! ### Theorems -/

theorem intercalate_go_append (s : String) :
    ∀ (l : List String) (a b : String),
      String.intercalate.go (a ++ b) s l = a ++ String.intercalate.go b s l := by
  intro l
  induction l with
  | nil => intro a b; rfl
  | cons c cs ih =>
      intro a b
      show String.intercalate.go (a ++ b ++ s ++ c) s cs
          = a ++ String.intercalate.go (b ++ s ++ c) s cs
      rw [String.append_assoc a b s, String.append_assoc a (b ++ s) c]
      exact ih a (b ++ s ++ c)

theorem intercalate_cons_cons (s a b : String) (l : List String) :
    String.intercalate s (a :: b :: l) = a ++ s ++ String.intercalate s (b :: l) := by
  show String.intercalate.go (a ++ s ++ b) s l = a ++ s ++ String.intercalate.go b s l
  exact intercalate_go_append s l (a ++ s) b

theorem handleCopyText_eq_specTranscript (fmtTime : String → String) :
    ∀ messages : List Message,
      handleCopyText fmtTime messages = specTranscript fmtTime messages := by
  intro messages
  induction messages with
  | nil => rfl
  | cons m rest ih =>
      cases rest with
      | nil => rfl
      | cons m2 rest2 =>
          show String.intercalate "\n"
              (messageBlock fmtTime m :: messageBlock fmtTime m2
                :: rest2.map (messageBlock fmtTime))
            = specTranscript fmtTime (m :: m2 :: rest2)
          rw [intercalate_cons_cons, specTranscript, ← ih]
          rfl

/-- Claim C8: for every message sequence, the plain-text export equals the
concatenation, in insertion order with blank-line separation and nothing
inserted, dropped, or reordered, of one `[localized-time] ROLE:\ncontent\n`
block per Message (ROLE = YOU for user, ARCHIVE for assistant); in
particular for `[{user,"Hi",t1},{assistant,"Hello",t2}]` it is exactly the
two formatted blocks in order. -/
theorem copy_text_is_ordered_blocks :
    (∀ (fmtTime : String → String) (messages : List Message),
        handleCopyText fmtTime messages = specTranscript fmtTime messages) ∧
    (∀ (fmtTime : String → String) (t1 t2 : String),
        handleCopyText fmtTime
            [{ role := "user", content := "Hi", timestamp := t1 },
             { role := "assistant", content := "Hello", timestamp := t2 }]
          = ("[" ++ fmtTime t1 ++ "] YOU:\nHi\n") ++ "\n"
              ++ ("[" ++ fmtTime t2 ++ "] ARCHIVE:\nHello\n")) := by
  constructor
  · exact handleCopyText_eq_specTranscript
  · intro fmtTime t1 t2
    rw [handleCopyText_eq_specTranscript]
    show messageBlock fmtTime _ ++ "\n" ++ messageBlock fmtTime _ = _
    simp only [messageBlock, roleLabel, String.append_assoc]
    rfl

/-- Claim C1: for every draft that is non-empty after trimming, the part of
`submit()` that runs before the network call resolves appends exactly one
user Message whose content is the current draft to the end of the message
list and clears the draft to the empty string. -/
theorem submit_appends_user_and_clears_draft (s : LearnState) (tsUser : String)
    (h : ¬ jsTrim s.query = "") :
    (handleSubmitPre s tsUser).1.messages
        = s.messages ++ [{ role := "user", content := s.query, timestamp := tsUser }] ∧
    (handleSubmitPre s tsUser).1.query = "" := by
  rw [handleSubmitPre, if_neg h]
  cases hr : s.isRecordingLearn <;> simp

theorem submit_appends_user_and_clears_draft_witness :
    ¬ jsTrim ({ initialLearnState with query := "hi" } : LearnState).query = "" ∧
    ((handleSubmitPre { initialLearnState with query := "hi" } "t1").1.messages
        = ({ initialLearnState with query := "hi" } : LearnState).messages
            ++ [{ role := "user", content := "hi", timestamp := "t1" }] ∧
     (handleSubmitPre { initialLearnState with query := "hi" } "t1").1.query = "") :=
  ⟨by decide,
   submit_appends_user_and_clears_draft { initialLearnState with query := "hi" } "t1"
     (by decide)⟩

/-- Claim C10: every submission that reaches the network call sends a JSON
body whose `query` field equals the content of the user Message appended by
that same submission (the draft captured before it was cleared). -/
theorem request_body_matches_appended_user_message (s : LearnState) (tsUser : String)
    (h : ¬ jsTrim s.query = "") :
    (handleSubmitPre s tsUser).2 = some { query := s.query } ∧
    (handleSubmitPre s tsUser).1.messages.getLast?
        = some { role := "user", content := s.query, timestamp := tsUser } := by
  rw [handleSubmitPre, if_neg h]
  cases hr : s.isRecordingLearn <;> simp

theorem request_body_matches_appended_user_message_witness :
    ¬ jsTrim ({ initialLearnState with query := "ask me" } : LearnState).query = "" ∧
    ((handleSubmitPre { initialLearnState with query := "ask me" } "t1").2
        = some { query := "ask me" } ∧
     (handleSubmitPre { initialLearnState with query := "ask me" } "t1").1.messages.getLast?
        = some { role := "user", content := "ask me", timestamp := "t1" }) :=
  ⟨by decide,
   request_body_matches_appended_user_message { initialLearnState with query := "ask me" } "t1"
     (by decide)⟩

/-- Claim C2 counterexample: with a successful (2xx) response whose payload
is `{response: ""}` (the string X = ""), the appended assistant Message's
content is the fallback string, not `""`: JavaScript `data.response || 
fallback` treats the empty string as falsy. So the claim is false for
X = "". -/
theorem success_empty_string_response_not_echoed :
    (handleSubmit { initialLearnState with query := "hi" } "t1" "t2"
          (.httpResponse true (some ""))).1.messages
        = [{ role := "user", content := "hi", timestamp := "t1" },
           { role := "assistant", content := "No response from archive.", timestamp := "t2" }]
      ∧ ¬ ∃ m ∈ (handleSubmit { initialLearnState with query := "hi" } "t1" "t2"
          (.httpResponse true (some ""))).1.messages,
            m.role = "assistant" ∧ m.content = "" := by
  decide

/-- Claim C2 (amended): for every non-empty string X, when the request
succeeds (2xx) and the response payload is `{response: X}`, exactly one
assistant Message with content exactly X is appended after the user
Message, and no error state is set. -/
theorem success_nonempty_response_appended (s : LearnState)
    (tsUser tsAssistant X : String)
    (h : ¬ jsTrim s.query = "") (hX : ¬ X = "") :
    (handleSubmit s tsUser tsAssistant (.httpResponse true (some X))).1.messages
        = s.messages ++ [{ role := "user", content := s.query, timestamp := tsUser },
                         { role := "assistant", content := X, timestamp := tsAssistant }] ∧
    (handleSubmit s tsUser tsAssistant (.httpResponse true (some X))).1.error = none := by
  rw [handleSubmit, handleSubmitPre]
  rw [if_neg h]
  cases hr : s.isRecordingLearn <;>
    simp [handleSubmitResolve, jsOrString, hX]

theorem success_nonempty_response_appended_witness :
    ¬ jsTrim ({ initialLearnState with query := "hi" } : LearnState).query = "" ∧
    ¬ ("Hello" : String) = "" ∧
    ((handleSubmit { initialLearnState with query := "hi" } "t1" "t2"
          (.httpResponse true (some "Hello"))).1.messages
        = ({ initialLearnState with query := "hi" } : LearnState).messages
            ++ [{ role := "user", content := "hi", timestamp := "t1" },
                { role := "assistant", content := "Hello", timestamp := "t2" }] ∧
     (handleSubmit { initialLearnState with query := "hi" } "t1" "t2"
          (.httpResponse true (some "Hello"))).1.error = none) :=
  ⟨by decide, by decide,
   success_nonempty_response_appended { initialLearnState with query := "hi" } "t1" "t2"
     "Hello" (by decide) (by decide)⟩

/-- Claim C5: when the request succeeds (2xx) but the parsed payload has no
`response` field, exactly one assistant Message is appended whose content
is the fixed fallback string, and the call does not fail (no error state
is set). -/
theorem success_missing_field_uses_fallback (s : LearnState)
    (tsUser tsAssistant : String) (h : ¬ jsTrim s.query = "") :
    (handleSubmit s tsUser tsAssistant (.httpResponse true none)).1.messages
        = s.messages ++ [{ role := "user", content := s.query, timestamp := tsUser },
                         { role := "assistant", content := fallbackContent,
                           timestamp := tsAssistant }] ∧
    (handleSubmit s tsUser tsAssistant (.httpResponse true none)).1.error = none := by
  rw [handleSubmit, handleSubmitPre]
  rw [if_neg h]
  cases hr : s.isRecordingLearn <;>
    simp [handleSubmitResolve, jsOrString]

theorem success_missing_field_uses_fallback_witness :
    ¬ jsTrim ({ initialLearnState with query := "hi" } : LearnState).query = "" ∧
    ((handleSubmit { initialLearnState with query := "hi" } "t1" "t2"
          (.httpResponse true none)).1.messages
        = ({ initialLearnState with query := "hi" } : LearnState).messages
            ++ [{ role := "user", content := "hi", timestamp := "t1" },
                { role := "assistant", content := fallbackContent, timestamp := "t2" }] ∧
     (handleSubmit { initialLearnState with query := "hi" } "t1" "t2"
          (.httpResponse true none)).1.error = none) :=
  ⟨by decide,
   success_missing_field_uses_fallback { initialLearnState with query := "hi" } "t1" "t2"
     (by decide)⟩

/-- Claim C3: on transport failure or a non-2xx HTTP status, no assistant
Message is appended (only the user Message from the same submission), the
error state becomes exactly the fixed error string, and a subsequent
successful `submit()` ends with the error state cleared (empty). -/
theorem failure_sets_error_and_next_success_clears (s : LearnState)
    (tsUser tsAssistant tsUser2 tsAssistant2 q2 X : String) (o : FetchOutcome)
    (h : ¬ jsTrim s.query = "")
    (ho : o = .networkError ∨ ∃ b, o = .httpResponse false b)
    (h2 : ¬ jsTrim q2 = "") :
    (handleSubmit s tsUser tsAssistant o).1.messages
        = s.messages ++ [{ role := "user", content := s.query, timestamp := tsUser }] ∧
    (handleSubmit s tsUser tsAssistant o).1.error = some connectErrorText ∧
    (handleSubmit { (handleSubmit s tsUser tsAssistant o).1 with query := q2 }
        tsUser2 tsAssistant2 (.httpResponse true (some X))).1.error = none := by
  rcases ho with rfl | ⟨b, rfl⟩ <;>
    · rw [handleSubmit, handleSubmitPre, if_neg h]
      cases hr : s.isRecordingLearn <;>
        simp [handleSubmitResolve, handleSubmit, handleSubmitPre, h2, jsOrString]

theorem failure_sets_error_and_next_success_clears_witness :
    ¬ jsTrim ({ initialLearnState with query := "hi" } : LearnState).query = "" ∧
    ((FetchOutcome.networkError = FetchOutcome.networkError
        ∨ ∃ b, FetchOutcome.networkError = FetchOutcome.httpResponse false b) ∧
     ¬ jsTrim "again" = "") ∧
    ((handleSubmit { initialLearnState with query := "hi" } "t1" "t2"
          FetchOutcome.networkError).1.messages
        = ({ initialLearnState with query := "hi" } : LearnState).messages
            ++ [{ role := "user", content := "hi", timestamp := "t1" }] ∧
     (handleSubmit { initialLearnState with query := "hi" } "t1" "t2"
          FetchOutcome.networkError).1.error = some connectErrorText ∧
     (handleSubmit
          { (handleSubmit { initialLearnState with query := "hi" } "t1" "t2"
              FetchOutcome.networkError).1 with query := "again" }
          "t3" "t4" (.httpResponse true (some "ok"))).1.error = none) :=
  ⟨by decide, ⟨Or.inl rfl, by decide⟩,
   failure_sets_error_and_next_success_clears { initialLearnState with query := "hi" }
     "t1" "t2" "t3" "t4" "again" "ok" FetchOutcome.networkError
     (by decide) (Or.inl rfl) (by decide)⟩

/-- Claim C4 counterexample: `handleSubmit` itself contains no check of the
`loading` flag, so a call to `submit()` while a request is in flight
(`loading = true`) with a non-empty draft is not a no-op: it appends a user
Message and issues a network request. -/
theorem submit_while_loading_not_noop :
    ¬ (handleSubmit { initialLearnState with query := "hi", loading := true } "t1" "t2"
          FetchOutcome.networkError).1.messages
        = ({ initialLearnState with query := "hi", loading := true } : LearnState).messages
      ∧
    (handleSubmit { initialLearnState with query := "hi", loading := true } "t1" "t2"
        FetchOutcome.networkError).2 = some { query := "hi" } := by
  decide

/-- Claim C4 (amended): while a request is in flight, every submission
attempt that goes through the UI is a no-op — the ASK submit button and the
text input are both rendered `disabled` while `loading`, so no submit event
reaches the handler, no Message is appended, and no network call is issued;
`handleSubmit` itself, however, performs no `loading` check, so a direct
call to it while loading is not a no-op. -/
theorem ui_submit_noop_while_loading (s : LearnState) (tsUser tsAssistant : String)
    (o : FetchOutcome) (h : s.loading = true) :
    uiSubmit s tsUser tsAssistant o = (s, none) := by
  rw [uiSubmit]
  simp [askSubmitDisabled, h]

theorem ui_submit_noop_while_loading_witness :
    ({ initialLearnState with query := "hi", loading := true } : LearnState).loading = true ∧
    uiSubmit { initialLearnState with query := "hi", loading := true } "t1" "t2"
        FetchOutcome.networkError
      = ({ initialLearnState with query := "hi", loading := true }, none) :=
  ⟨rfl,
   ui_submit_noop_while_loading { initialLearnState with query := "hi", loading := true }
     "t1" "t2" FetchOutcome.networkError rfl⟩

/-- Claim C6: after the initial welcome seeding, every state update leaves
the existing message sequence as an unchanged prefix and appends at most
one Message at the end — no Message is mutated, removed, or reordered. -/
theorem messages_append_only (s : LearnState) (e : Event) :
    ∃ t, (step s e).messages = s.messages ++ t ∧ t.length ≤ 1 := by
  cases e with
  | setQueryInput t => exact ⟨[], by simp [step]⟩
  | submitStart ts =>
      by_cases h : jsTrim s.query = ""
      · exact ⟨[], by simp [step, handleSubmitPre, h]⟩
      · refine ⟨[{ role := "user", content := s.query, timestamp := ts }], ?_, by simp⟩
        show (handleSubmitPre s ts).1.messages = _
        rw [handleSubmitPre, if_neg h]
        cases hr : s.isRecordingLearn <;> simp
  | submitFinish o ts =>
      cases o with
      | networkError => exact ⟨[], by simp [step, handleSubmitResolve]⟩
      | httpResponse ok b =>
          cases ok with
          | false => exact ⟨[], by simp [step, handleSubmitResolve]⟩
          | true =>
              exact ⟨[{ role := "assistant", content := jsOrString b fallbackContent,
                        timestamp := ts }],
                     by simp [step, handleSubmitResolve], by simp⟩
  | toggleMic =>
      refine ⟨[], ?_, by simp⟩
      show (toggleMicrophoneLearn s).messages = _
      rw [toggleMicrophoneLearn]
      split_ifs <;> simp
  | autoStopTimer =>
      refine ⟨[], ?_, by simp⟩
      show (fireAutoStop s).messages = _
      cases hp : s.pendingAutoStop <;> simp [fireAutoStop, hp]
  | recognitionEnd => exact ⟨[], by simp [step]⟩
  | recognitionError => exact ⟨[], by simp [step]⟩
  | speechTranscript f i =>
      refine ⟨[], ?_, by simp⟩
      show (speechResult s f i).messages = _
      rw [speechResult]
      split_ifs <;> simp

/-- Claim C9 evaluated on the code at the failing scenario: toggling the
microphone from the idle state starts recording and schedules the 3-second
auto-stop timer, but the timer closure captured `isRecordingLearn` from the
render that created the handler — where it was still `false` — so when the
timer fires while recording is active it does not invoke `stop()`: the
recognition session stays active and the advertised auto-stop never
happens through this timer. -/
theorem auto_stop_timer_never_stops_recognition :
    (toggleMicrophoneLearn initialLearnState).isRecordingLearn = true ∧
    (toggleMicrophoneLearn initialLearnState).recognitionActive = true ∧
    (toggleMicrophoneLearn initialLearnState).pendingAutoStop = some false ∧
    (fireAutoStop (toggleMicrophoneLearn initialLearnState)).recognitionActive = true ∧
    (fireAutoStop (toggleMicrophoneLearn initialLearnState)).isRecordingLearn = true := by
  decide

/-- All recorded text writes sit at or above the bottom margin. -/
def writesBounded (pageHeight : Int) (ws : List PdfWrite) : Prop :=
  ∀ w ∈ ws, w.y ≤ pageHeight - pdfMargin

theorem pdfEnsureRoom_writes (pageHeight : Int) (d : PdfDoc) :
    (pdfEnsureRoom pageHeight d).writes = d.writes := by
  rw [pdfEnsureRoom]
  split <;> rfl

theorem pdfEnsureRoom_y_le (pageHeight : Int) (d : PdfDoc)
    (h : 2 * pdfMargin ≤ pageHeight) :
    (pdfEnsureRoom pageHeight d).y ≤ pageHeight - pdfMargin := by
  rw [pdfEnsureRoom]
  split <;> simp only [pdfMargin] at * <;> omega

theorem pdfGuardedLine_writesBounded {pageHeight : Int}
    (h : 2 * pdfMargin ≤ pageHeight) (d : PdfDoc) (txt : String)
    (hd : writesBounded pageHeight d.writes) :
    writesBounded pageHeight (pdfGuardedLine pageHeight d txt).writes := by
  have hw : (pdfGuardedLine pageHeight d txt).writes
      = d.writes ++ [{ page := (pdfEnsureRoom pageHeight d).page
                       y := (pdfEnsureRoom pageHeight d).y, text := txt }] := by
    simp [pdfGuardedLine, pdfWriteText, pdfEnsureRoom_writes]
  intro w hmem
  rw [hw] at hmem
  rcases List.mem_append.mp hmem with hmem | hmem
  · exact hd w hmem
  · rcases List.mem_singleton.mp hmem with rfl
    exact pdfEnsureRoom_y_le pageHeight d h

theorem foldl_pdfGuardedLine_writesBounded {pageHeight : Int}
    (h : 2 * pdfMargin ≤ pageHeight) :
    ∀ (l : List String) (d : PdfDoc), writesBounded pageHeight d.writes →
      writesBounded pageHeight (l.foldl (pdfGuardedLine pageHeight) d).writes := by
  intro l
  induction l with
  | nil => intro d hd; exact hd
  | cons a l ih =>
      intro d hd
      exact ih _ (pdfGuardedLine_writesBounded h d a hd)

theorem renderMessage_writesBounded {pageHeight : Int}
    (h : 2 * pdfMargin ≤ pageHeight) (split : String → List String)
    (fmtTime : String → String) (d : PdfDoc) (msg : Message)
    (hd : writesBounded pageHeight d.writes) :
    writesBounded pageHeight (renderMessage pageHeight split fmtTime d msg).writes := by
  intro w hmem
  simp only [renderMessage] at hmem
  exact foldl_pdfGuardedLine_writesBounded h (split msg.content) _
    (pdfGuardedLine_writesBounded h d _ hd) w hmem

theorem foldl_renderMessage_writesBounded {pageHeight : Int}
    (h : 2 * pdfMargin ≤ pageHeight) (split : String → List String)
    (fmtTime : String → String) :
    ∀ (msgs : List Message) (d : PdfDoc), writesBounded pageHeight d.writes →
      writesBounded pageHeight
        (msgs.foldl (renderMessage pageHeight split fmtTime) d).writes := by
  intro msgs
  induction msgs with
  | nil => intro d hd; exact hd
  | cons m msgs ih =>
      intro d hd
      exact ih _ (renderMessage_writesBounded h split fmtTime d m hd)

/-- Claim C7: for every message sequence, no header line or wrapped content
line of the PDF export is written below the page's bottom margin — before
any write whose cursor has passed the bottom margin, a new page is started
and the cursor is reset to the top margin — for every page height of at
least 50 (A4 is 297; the hypothesis covers the title and timestamp lines,
written unguarded at 20 and 30). -/
theorem pdf_never_writes_below_bottom_margin (pageHeight : Int)
    (split : String → List String) (fmtTime : String → String) (genTime : String)
    (messages : List Message) (h : 50 ≤ pageHeight) :
    ∀ w ∈ (handleDownloadPDF pageHeight split fmtTime genTime messages).writes,
      w.y ≤ pageHeight - pdfMargin := by
  have hm : 2 * pdfMargin ≤ pageHeight := by
    simp only [pdfMargin]; omega
  intro w hmem
  simp only [handleDownloadPDF, pdfWriteText, List.nil_append] at hmem
  refine foldl_renderMessage_writesBounded hm split fmtTime messages _ ?_ w hmem
  intro w2 hmem2
  simp only [List.nil_append, List.singleton_append, List.cons_append, List.mem_append,
    List.mem_cons, List.mem_singleton, List.not_mem_nil, or_false, false_or] at hmem2
  rcases hmem2 with rfl | rfl <;> · simp only [pdfMargin]; omega

theorem pdf_never_writes_below_bottom_margin_witness :
    (50 ≤ (297 : Int)) ∧
    (∀ w ∈ (handleDownloadPDF 297 (fun _ => List.replicate 70 "x")
        (fun _ => "12:00:00 PM") "now"
        [{ role := "user", content := "long question", timestamp := "t" }]).writes,
      w.y ≤ 297 - pdfMargin) ∧
    (handleDownloadPDF 297 (fun _ => List.replicate 70 "x")
        (fun _ => "12:00:00 PM") "now"
        [{ role := "user", content := "long question", timestamp := "t" }]).page = 2 :=
  ⟨by decide,
   pdf_never_writes_below_bottom_margin 297 (fun _ => List.replicate 70 "x")
     (fun _ => "12:00:00 PM") "now"
     [{ role := "user", content := "long question", timestamp := "t" }] (by decide),
   by decide⟩
